import Mathlib

/-
Verification of the user-directory manager (Rust sources under src/):
a validation + persistence pipeline consisting of a JSON-file-backed
store (src/repositories/user_repository.rs) and a directory service
(src/services/user_service.rs) that validates input and enforces
uniqueness/existence invariants before every store call.

Modelling conventions:
- Rust `String` / `&str` values are modelled as `List Char` (`Str`);
  `str::len` (UTF-8 byte count) is `utf8Len`, `str::trim` is `trim`
  over the Unicode White_Space code points used by `char::is_whitespace`.
- The repository trait `UserRepositoryTrait` is modelled as a record of
  state-passing operations over an abstract state `σ`; each operation
  returns `Except String' result × σ`, mirroring `Result<_, String>`.
- The file-backed implementation `UserRepositoryImpl` is modelled at two
  levels: `read_users` captures the file-content policy (missing file,
  empty file, parse failure) with the JSON parser abstracted as a
  parameter, and `userRepositoryImpl` captures the record-set semantics
  of save / find_by_email / find_all / delete with the durable state
  taken to be the parsed record map (serialization assumed to
  round-trip, I/O succeeding; failure paths are exercised through the
  abstract trait instead).
-/

/-- Rust strings, modelled as their list of Unicode scalar values. -/
abbrev Str := List Char

/-- The record type of src/models/user.rs: email, username, phone, age. -/
structure User where
  email : Str
  username : Str
  phone : Str
  age : Nat
deriving DecidableEq

/-- The error enumeration of src/services/user_service.rs (`UserError`). -/
inductive UserError where
  | InvalidEmail (msg : Str)
  | InvalidUsername (msg : Str)
  | InvalidPhone (msg : Str)
  | InvalidAge (msg : Str)
  | UserNotFound (msg : Str)
  | RepositoryError (msg : Str)
  | UserAlreadyExists (msg : Str)
deriving DecidableEq

instance {ε α : Type} [DecidableEq ε] [DecidableEq α] : DecidableEq (Except ε α)
  | .error a, .error b =>
    if h : a = b then isTrue (by rw [h]) else isFalse (fun hc => h (by cases hc; rfl))
  | .error _, .ok _ => isFalse (fun hc => by cases hc)
  | .ok _, .error _ => isFalse (fun hc => by cases hc)
  | .ok a, .ok b =>
    if h : a = b then isTrue (by rw [h]) else isFalse (fun hc => h (by cases hc; rfl))

/-- Whether `c` has the Unicode White_Space property, as Rust's
`char::is_whitespace` (used by `str::trim`) decides it. -/
def isRustWhitespace (c : Char) : Bool :=
  c.toNat = 0x09 || c.toNat = 0x0A || c.toNat = 0x0B || c.toNat = 0x0C ||
  c.toNat = 0x0D || c.toNat = 0x20 || c.toNat = 0x85 || c.toNat = 0xA0 ||
  c.toNat = 0x1680 ||
  (0x2000 ≤ c.toNat && c.toNat ≤ 0x200A) ||
  c.toNat = 0x2028 || c.toNat = 0x2029 || c.toNat = 0x202F ||
  c.toNat = 0x205F || c.toNat = 0x3000

/-- Rust `str::trim`: strip leading and trailing whitespace. -/
def trim (s : Str) : Str :=
  ((s.dropWhile isRustWhitespace).reverse.dropWhile isRustWhitespace).reverse

/-- Rust `str::len`: the length of the string in UTF-8 bytes. -/
def utf8Len (s : Str) : Nat :=
  (s.map (fun c => c.utf8Size)).sum

/-- Character class `[a-zA-Z0-9._%+-]` of the email regex (local part). -/
def isEmailLocalChar (c : Char) : Bool :=
  c.isAlpha || c.isDigit || c == '.' || c == '_' || c == '%' || c == '+' || c == '-'

/-- Character class `[a-zA-Z0-9.-]` of the email regex (domain part). -/
def isEmailDomainChar (c : Char) : Bool :=
  c.isAlpha || c.isDigit || c == '.' || c == '-'

/-- Anchored match of the email regex of `validate_email`:
one or more local-part characters, a single literal at sign, one or more
domain characters, a literal dot, then at least two ASCII letters to the
end.  Both character classes exclude the at sign, so the local part must
stop at the first at sign; the top-level label consists of letters and
runs to the end of the string, so it is exactly the maximal trailing
letter run, and the character before it must be the literal dot. -/
def email_is_match (s : Str) : Bool :=
  let localPart := s.takeWhile (fun c => !(c == '@'))
  match s.dropWhile (fun c => !(c == '@')) with
  | [] => false
  | _ :: domainAndTld =>
    (!localPart.isEmpty) && localPart.all isEmailLocalChar &&
      (match domainAndTld.reverse.dropWhile Char.isAlpha with
       | [] => false
       | d :: domainRev =>
         d == '.' &&
           decide (2 ≤ (domainAndTld.reverse.takeWhile Char.isAlpha).length) &&
           (!domainRev.isEmpty) && domainRev.all isEmailDomainChar)

/-- Message built by `validate_email`'s `format!`. -/
def invalidEmailMsg (email : Str) : Str :=
  ("Invalid email format: ").data ++ email

/-- The constant message of `validate_username`. -/
def usernameErrMsg : Str :=
  ("Username must be at least 3 characters long").data

/-- The constant message of `validate_phone`. -/
def phoneErrMsg : Str :=
  ("Phone number must be at least 10 digits").data

/-- The constant message of `validate_age`. -/
def ageErrMsg : Str :=
  ("Age must be between 0 and 150").data

/-- Message built by `create_user`'s `format!` on a duplicate email. -/
def userAlreadyExistsMsg (email : Str) : Str :=
  ("User with email ").data ++ email ++ (" already exists").data

/-- Message built by the `format!` of `update_user` / `get_user` /
`delete_user` when a record is absent. -/
def userNotFoundMsg (email : Str) : Str :=
  ("User with email ").data ++ email ++ (" not found").data

/-- `UserService::validate_email`: reject exactly the strings the regex
`[local]+at[domain]+dot[letters]{2,}` (anchored) does not match. -/
def validate_email (email : Str) : Except UserError Unit :=
  if !(email_is_match email) then
    .error (.InvalidEmail (invalidEmailMsg email))
  else .ok ()

/-- `UserService::validate_username`: reject when the trimmed string is
empty or the raw byte length is below 3. -/
def validate_username (username : Str) : Except UserError Unit :=
  if (trim username).isEmpty || utf8Len username < 3 then
    .error (.InvalidUsername usernameErrMsg)
  else .ok ()

/-- `UserService::validate_phone`: the anchored regex `\d{10,}` — at
least ten digits and nothing else (digits modelled as ASCII digits). -/
def validate_phone (phone : Str) : Except UserError Unit :=
  if !(phone.all Char.isDigit && decide (10 ≤ phone.length)) then
    .error (.InvalidPhone phoneErrMsg)
  else .ok ()

/-- `UserService::validate_age`: reject ages above 150. -/
def validate_age (age : Nat) : Except UserError Unit :=
  if age > 150 then
    .error (.InvalidAge ageErrMsg)
  else .ok ()

/-- The repository trait of src/repositories/user_repository.rs, as a
record of state-passing operations over an abstract store state `σ`
(the service in src/services/user_service.rs is generic over it). -/
structure UserRepositoryTrait (σ : Type) where
  save : User → σ → Except Str Unit × σ
  find_by_email : Str → σ → Except Str (Option User) × σ
  find_all : σ → Except Str (List User) × σ
  delete : Str → σ → Except Str Bool × σ

/-- `UserService::create_user`: validate email, username, phone, age in
that order; then the uniqueness check `if let Ok(Some(_)) =
repository.find_by_email(..)` — note that this pattern falls through
both on `Ok(None)` and on `Err(_)` — then construct the record from the
arguments and `repository.save` it, wrapping a save failure as
`RepositoryError`. -/
def create_user {σ : Type} (repo : UserRepositoryTrait σ) (s : σ)
    (email username phone : Str) (age : Nat) : Except UserError User × σ :=
  match validate_email email with
  | .error e => (.error e, s)
  | .ok _ =>
    match validate_username username with
    | .error e => (.error e, s)
    | .ok _ =>
      match validate_phone phone with
      | .error e => (.error e, s)
      | .ok _ =>
        match validate_age age with
        | .error e => (.error e, s)
        | .ok _ =>
          match repo.find_by_email email s with
          | (.ok (some _), s1) =>
            (.error (.UserAlreadyExists (userAlreadyExistsMsg email)), s1)
          | (.ok none, s1) =>
            match repo.save ⟨email, username, phone, age⟩ s1 with
            | (.error e2, s2) => (.error (.RepositoryError e2), s2)
            | (.ok _, s2) => (.ok ⟨email, username, phone, age⟩, s2)
          | (.error _, s1) =>
            match repo.save ⟨email, username, phone, age⟩ s1 with
            | (.error e2, s2) => (.error (.RepositoryError e2), s2)
            | (.ok _, s2) => (.ok ⟨email, username, phone, age⟩, s2)

/-- `UserService::update_user`: validate username, phone, age in that
order (the email is not validated); look the record up by email, where a
repository failure propagates through `?` as `RepositoryError` (the
`From<String>` impl) and an absent record yields `UserNotFound`;
otherwise save the record rebuilt from the four arguments. -/
def update_user {σ : Type} (repo : UserRepositoryTrait σ) (s : σ)
    (email username phone : Str) (age : Nat) : Except UserError User × σ :=
  match validate_username username with
  | .error e => (.error e, s)
  | .ok _ =>
    match validate_phone phone with
    | .error e => (.error e, s)
    | .ok _ =>
      match validate_age age with
      | .error e => (.error e, s)
      | .ok _ =>
        match repo.find_by_email email s with
        | (.error e1, s1) => (.error (.RepositoryError e1), s1)
        | (.ok none, s1) => (.error (.UserNotFound (userNotFoundMsg email)), s1)
        | (.ok (some _), s1) =>
          match repo.save ⟨email, username, phone, age⟩ s1 with
          | (.error e2, s2) => (.error (.RepositoryError e2), s2)
          | (.ok _, s2) => (.ok ⟨email, username, phone, age⟩, s2)

/-- `UserService::get_user`: look the record up by email; a repository
failure propagates through `?` as `RepositoryError`, an absent record
yields `UserNotFound`. -/
def get_user {σ : Type} (repo : UserRepositoryTrait σ) (s : σ)
    (email : Str) : Except UserError User × σ :=
  match repo.find_by_email email s with
  | (.error e, s1) => (.error (.RepositoryError e), s1)
  | (.ok none, s1) => (.error (.UserNotFound (userNotFoundMsg email)), s1)
  | (.ok (some u), s1) => (.ok u, s1)

/-- `UserService::list_users`: delegate to `find_all`, wrapping a
repository failure as `RepositoryError`. -/
def list_users {σ : Type} (repo : UserRepositoryTrait σ) (s : σ) :
    Except UserError (List User) × σ :=
  match repo.find_all s with
  | (.error e, s1) => (.error (.RepositoryError e), s1)
  | (.ok us, s1) => (.ok us, s1)

/-- `UserService::delete_user`: delegate to `repository.delete`,
wrapping a repository failure as `RepositoryError`; if it reports the
record did not exist, fail with `UserNotFound`, else return unit. -/
def delete_user {σ : Type} (repo : UserRepositoryTrait σ) (s : σ)
    (email : Str) : Except UserError Unit × σ :=
  match repo.delete email s with
  | (.error e, s1) => (.error (.RepositoryError e), s1)
  | (.ok false, s1) => (.error (.UserNotFound (userNotFoundMsg email)), s1)
  | (.ok true, s1) => (.ok (), s1)

/-- The record map held in the JSON file (`HashMap<String, User>`),
modelled as an association list keyed by email; a well-formed map has
pairwise distinct keys, as a hash map does. -/
abbrev UserMap := List (Str × User)

/-- `HashMap::get`: the value at the first matching key, if any. -/
def lookupAL (m : UserMap) (k : Str) : Option User :=
  match m with
  | [] => none
  | (k1, v1) :: rest => if k1 = k then some v1 else lookupAL rest k

/-- `HashMap::insert`: overwrite the entry at the key if present,
otherwise add one. -/
def insertAL (m : UserMap) (k : Str) (v : User) : UserMap :=
  match m with
  | [] => [(k, v)]
  | (k1, v1) :: rest =>
    if k1 = k then (k, v) :: rest else (k1, v1) :: insertAL rest k v

/-- `HashMap::remove`: drop the entry at the key, if any. -/
def removeAL (m : UserMap) (k : Str) : UserMap :=
  match m with
  | [] => []
  | (k1, v1) :: rest =>
    if k1 = k then rest else (k1, v1) :: removeAL rest k

/-- Whether the map holds an entry at the key
(`HashMap::remove(..).is_some()` in `delete`). -/
def containsAL (m : UserMap) (k : Str) : Bool :=
  match m with
  | [] => false
  | (k1, _) :: rest => if k1 = k then true else containsAL rest k

/-- The file contents seen by `read_users`: either the backing file is
missing, or it is present with some text. -/
inductive FileState where
  | missing : FileState
  | present (content : Str) : FileState

/-- Error prefix of `read_users`'s `map_err` around `serde_json::from_str`. -/
def parseErrPrefix : Str :=
  ("Failed to parse JSON: ").data

/-- `UserRepositoryImpl::read_users`: a missing file is an empty map; an
existing file is read (a read failure is outside this model: the content
is given), and empty content is an empty map; otherwise the content is
handed to the JSON parser — abstracted here as the parameter `parse` —
and a parse failure is reported with the `Failed to parse JSON:`
prefix. -/
def read_users (parse : Str → Except Str UserMap) (fs : FileState) :
    Except Str UserMap :=
  match fs with
  | .missing => .ok []
  | .present content =>
    if content.isEmpty then .ok []
    else
      match parse content with
      | .error e => .error (parseErrPrefix ++ e)
      | .ok m => .ok m

/-- `UserRepositoryImpl` (the file-backed repository) at the record-set
level: the state is the map stored in the file; `save` reads the map,
inserts the record under its email and writes the map back;
`find_by_email` reads and looks up; `find_all` reads and returns the
values; `delete` reads, removes the entry, writes the map back and
returns whether the entry existed. -/
def userRepositoryImpl : UserRepositoryTrait UserMap where
  save u s := (.ok (), insertAL s u.email u)
  find_by_email e s := (.ok (lookupAL s e), s)
  find_all s := (.ok (s.map Prod.snd), s)
  delete e s := (.ok (containsAL s e), removeAL s e)

/-- A repository double whose `find_by_email` fails with a storage
error; the state logs the operations invoked, so a `save` performed
after the failed lookup is visible in the final state. -/
def faultyFindRepo : UserRepositoryTrait (List String) where
  save _ s := (.ok (), s ++ [("save")])
  find_by_email _ s := (.error (("disk failure").data), s ++ [("find")])
  find_all s := (.ok [], s)
  delete _ s := (.ok false, s ++ [("delete")])

/-- Whether the error is one of the four field-validation errors. -/
def isValidationError : UserError → Bool
  | .InvalidEmail _ => true
  | .InvalidUsername _ => true
  | .InvalidPhone _ => true
  | .InvalidAge _ => true
  | _ => false

theorem validate_email_cases (email : Str) :
    validate_email email = .ok () ∨
      validate_email email = .error (.InvalidEmail (invalidEmailMsg email)) := by
  unfold validate_email
  split <;> simp

theorem validate_username_cases (u : Str) :
    validate_username u = .ok () ∨
      validate_username u = .error (.InvalidUsername usernameErrMsg) := by
  unfold validate_username
  split <;> simp

theorem validate_phone_cases (p : Str) :
    validate_phone p = .ok () ∨
      validate_phone p = .error (.InvalidPhone phoneErrMsg) := by
  unfold validate_phone
  split <;> simp

theorem validate_age_cases (a : Nat) :
    validate_age a = .ok () ∨
      validate_age a = .error (.InvalidAge ageErrMsg) := by
  unfold validate_age
  split <;> simp

theorem lookupAL_insertAL_self (m : UserMap) (k : Str) (v : User) :
    lookupAL (insertAL m k v) k = some v := by
  induction m with
  | nil => simp [insertAL, lookupAL]
  | cons hd tl ih =>
    obtain ⟨k1, v1⟩ := hd
    by_cases h : k1 = k
    · simp [insertAL, h, lookupAL]
    · simp [insertAL, h, lookupAL, ih]

theorem removeAL_eq_of_lookup_none (m : UserMap) (k : Str)
    (h : lookupAL m k = none) : removeAL m k = m := by
  induction m with
  | nil => simp [removeAL]
  | cons hd tl ih =>
    obtain ⟨k1, v1⟩ := hd
    by_cases hk : k1 = k
    · simp [lookupAL, hk] at h
    · simp [lookupAL, hk] at h
      simp [removeAL, hk, ih h]

theorem containsAL_eq_isSome (m : UserMap) (k : Str) :
    containsAL m k = (lookupAL m k).isSome := by
  induction m with
  | nil => simp [containsAL, lookupAL]
  | cons hd tl ih =>
    obtain ⟨k1, v1⟩ := hd
    by_cases hk : k1 = k
    · simp [containsAL, lookupAL, hk]
    · simp [containsAL, lookupAL, hk, ih]

theorem length_removeAL (m : UserMap) (k : Str) (u : User)
    (h : lookupAL m k = some u) : (removeAL m k).length + 1 = m.length := by
  induction m with
  | nil => simp [lookupAL] at h
  | cons hd tl ih =>
    obtain ⟨k1, v1⟩ := hd
    by_cases hk : k1 = k
    · simp [removeAL, hk]
    · simp [lookupAL, hk] at h
      simp [removeAL, hk, ih h]

theorem lookupAL_none_of_not_mem (m : UserMap) (k : Str)
    (h : k ∉ m.map Prod.fst) : lookupAL m k = none := by
  induction m with
  | nil => simp [lookupAL]
  | cons hd tl ih =>
    obtain ⟨k1, v1⟩ := hd
    simp only [List.map_cons, List.mem_cons, not_or] at h
    have h1 : ¬(k1 = k) := fun hc => h.1 hc.symm
    simp [lookupAL, h1, ih h.2]

theorem lookupAL_removeAL_self (m : UserMap) (k : Str)
    (hwf : (m.map Prod.fst).Nodup) : lookupAL (removeAL m k) k = none := by
  induction m with
  | nil => simp [removeAL, lookupAL]
  | cons hd tl ih =>
    obtain ⟨k1, v1⟩ := hd
    simp only [List.map_cons, List.nodup_cons] at hwf
    by_cases hk : k1 = k
    · subst hk
      simp only [removeAL, if_pos rfl]
      exact lookupAL_none_of_not_mem tl k1 hwf.1
    · simp [removeAL, hk, lookupAL, ih hwf.2]

theorem lookupAL_removeAL_ne (m : UserMap) (k e : Str) (h : e ≠ k) :
    lookupAL (removeAL m k) e = lookupAL m e := by
  induction m with
  | nil => simp [removeAL]
  | cons hd tl ih =>
    obtain ⟨k1, v1⟩ := hd
    by_cases hk : k1 = k
    · subst hk
      have hne : ¬(k1 = e) := fun hc => h hc.symm
      simp [removeAL, lookupAL, hne]
    · simp only [removeAL, if_neg hk, lookupAL]
      split <;> simp [ih]

/-- Claim C1 (code bug evidence): with a repository whose find_by_email
fails with a storage error, create_user on valid fields does not
surface the failure — the `if let Ok(Some(_))` pattern of the
uniqueness check silently discards it — and the call goes on to invoke
Store.save and succeed, as the operation log in the final state shows:
the lookup failure is swallowed and save is still performed. -/
theorem create_user_swallows_lookup_failure :
    create_user faultyFindRepo [] (("a@b.com").data) (("alice").data)
        (("1234567890").data) 30
      = (.ok ⟨("a@b.com").data, ("alice").data, ("1234567890").data, 30⟩,
         [("find"), ("save")]) := by
  rfl

/-- Claim C2, counterexample: the username consisting of a space and
two letters passes validate_username, although its trimmed form has
length 2 < 3 — the code compares the raw length, not the trimmed one —
while its raw length is 3. -/
theorem validate_username_trim_counterexample :
    validate_username ((" ab").data) = .ok ()
      ∧ (trim ((" ab").data)).length = 2
      ∧ utf8Len ((" ab").data) = 3 := by
  decide

/-- Claim C2, amended: the username validation used by create_user and
update_user accepts a username exactly when its trimmed form is
non-empty and its raw (untrimmed) UTF-8 byte length is at least 3; a
string whose trimmed length is below 3 is still accepted whenever its
raw length reaches 3 and something non-whitespace remains after
trimming. -/
theorem validate_username_accepts_iff (u : Str) :
    validate_username u = .ok () ↔ trim u ≠ [] ∧ 3 ≤ utf8Len u := by
  unfold validate_username
  split
  · rename_i h
    simp only [Bool.or_eq_true, List.isEmpty_iff, decide_eq_true_eq] at h
    constructor
    · intro hc
      cases hc
    · intro hr
      rcases h with h | h
      · exact absurd h hr.1
      · omega
  · rename_i h
    simp only [Bool.or_eq_true, List.isEmpty_iff, decide_eq_true_eq, not_or] at h
    exact ⟨fun _ => ⟨h.1, by omega⟩, fun _ => rfl⟩

/-- Claim C3: create_user validates the fields in the fixed order
email → username → phone → age and the first failing check
short-circuits, reporting that field's error only, with the repository
state untouched, over every repository.  The four clauses pin the
order because they discriminate between each pair of fields: an
invalid email yields InvalidEmail whatever the username, phone and age
are (so the email is checked first); a valid email with an invalid
username yields InvalidUsername whatever the phone and age are — never
InvalidPhone, the claim's highlighted case; a valid email and username
with an invalid phone yields InvalidPhone whatever the age is; and
only when the first three pass does an invalid age yield
InvalidAge. -/
theorem create_user_validation_order {σ : Type}
    (repo : UserRepositoryTrait σ) (s : σ) (email username phone : Str)
    (age : Nat) :
    (validate_email email ≠ .ok () →
        create_user repo s email username phone age
          = (.error (.InvalidEmail (invalidEmailMsg email)), s))
      ∧ (validate_email email = .ok () → validate_username username ≠ .ok () →
          create_user repo s email username phone age
            = (.error (.InvalidUsername usernameErrMsg), s))
      ∧ (validate_email email = .ok () → validate_username username = .ok () →
          validate_phone phone ≠ .ok () →
          create_user repo s email username phone age
            = (.error (.InvalidPhone phoneErrMsg), s))
      ∧ (validate_email email = .ok () → validate_username username = .ok () →
          validate_phone phone = .ok () → validate_age age ≠ .ok () →
          create_user repo s email username phone age
            = (.error (.InvalidAge ageErrMsg), s)) := by
  refine ⟨?_, ?_, ?_, ?_⟩
  · intro hemail
    have he := (validate_email_cases email).resolve_left hemail
    unfold create_user
    rw [he]
  · intro he husername
    have hu := (validate_username_cases username).resolve_left husername
    unfold create_user
    rw [he, hu]
  · intro he hu hphone
    have hp := (validate_phone_cases phone).resolve_left hphone
    unfold create_user
    rw [he, hu, hp]
  · intro he hu hp hage
    have ha := (validate_age_cases age).resolve_left hage
    unfold create_user
    rw [he, hu, hp, ha]

/-- Claim C3, witness: with both the email and the username invalid
only InvalidEmail is reported; with a valid email and both the
username and the phone invalid only InvalidUsername is reported (never
InvalidPhone); with valid email and username and both the phone and
the age invalid only InvalidPhone is reported. -/
theorem create_user_validation_order_witness :
    create_user userRepositoryImpl ([] : UserMap) (("bad").data)
        (("al").data) (("123").data) 200
      = (.error (.InvalidEmail (invalidEmailMsg (("bad").data))), ([] : UserMap))
      ∧ create_user userRepositoryImpl ([] : UserMap) (("a@b.com").data)
          (("al").data) (("123").data) 30
        = (.error (.InvalidUsername usernameErrMsg), ([] : UserMap))
      ∧ create_user userRepositoryImpl ([] : UserMap) (("a@b.com").data)
          (("alice").data) (("123").data) 200
        = (.error (.InvalidPhone phoneErrMsg), ([] : UserMap)) :=
  ⟨(create_user_validation_order userRepositoryImpl [] (("bad").data)
      (("al").data) (("123").data) 200).1 (by decide),
    (create_user_validation_order userRepositoryImpl [] (("a@b.com").data)
      (("al").data) (("123").data) 30).2.1 (by decide) (by decide),
    (create_user_validation_order userRepositoryImpl [] (("a@b.com").data)
      (("alice").data) (("123").data) 200).2.2.1 (by decide) (by decide)
      (by decide)⟩

/-- Claim C4: for every store state and valid field values (email
passing validate_email, username passing validate_username, phone
passing validate_phone, age passing validate_age, email not already
stored), create_user succeeds returning the record built from the
arguments, and get_user on that email in the resulting state returns an
equal record. -/
theorem create_user_then_get_user (s : UserMap) (email username phone : Str)
    (age : Nat)
    (he : validate_email email = .ok ()) (hu : validate_username username = .ok ())
    (hp : validate_phone phone = .ok ()) (ha : validate_age age = .ok ())
    (habs : lookupAL s email = none) :
    (create_user userRepositoryImpl s email username phone age).1
        = .ok ⟨email, username, phone, age⟩
      ∧ (get_user userRepositoryImpl
            (create_user userRepositoryImpl s email username phone age).2 email).1
          = .ok ⟨email, username, phone, age⟩ := by
  unfold create_user get_user
  rw [he, hu, hp, ha]
  simp only [userRepositoryImpl, habs]
  simp [lookupAL_insertAL_self]

/-- Claim C4, witness: creating a concrete record in the empty store
and fetching it back returns that record. -/
theorem create_user_then_get_user_witness :
    (validate_email (("a@b.com").data) = .ok ()
        ∧ validate_username (("alice").data) = .ok ()
        ∧ validate_phone (("1234567890").data) = .ok ()
        ∧ validate_age 30 = .ok ()
        ∧ lookupAL ([] : UserMap) (("a@b.com").data) = none)
      ∧ ((create_user userRepositoryImpl ([] : UserMap) (("a@b.com").data)
              (("alice").data) (("1234567890").data) 30).1
            = .ok ⟨("a@b.com").data, ("alice").data, ("1234567890").data, 30⟩
          ∧ (get_user userRepositoryImpl
                (create_user userRepositoryImpl ([] : UserMap) (("a@b.com").data)
                  (("alice").data) (("1234567890").data) 30).2
                (("a@b.com").data)).1
              = .ok ⟨("a@b.com").data, ("alice").data, ("1234567890").data, 30⟩) :=
  ⟨⟨by decide, by decide, by decide, by decide, by decide⟩,
    create_user_then_get_user [] (("a@b.com").data) (("alice").data)
      (("1234567890").data) 30 (by decide) (by decide) (by decide) (by decide)
      (by decide)⟩

/-- Claim C5: when a record is already stored under the email, a second
create_user with that email and otherwise valid fields fails with
UserAlreadyExists and the store state is exactly what it was, so the
first record is unchanged; moreover over an arbitrary repository, once
the uniqueness lookup answers with an existing record the call performs
no further repository operation — its final state is exactly the state
after the lookup, so Store.save is never invoked. -/
theorem create_user_duplicate_email (s : UserMap) (email username phone : Str)
    (age : Nat) (u0 : User)
    (he : validate_email email = .ok ()) (hu : validate_username username = .ok ())
    (hp : validate_phone phone = .ok ()) (ha : validate_age age = .ok ())
    (hex : lookupAL s email = some u0) :
    create_user userRepositoryImpl s email username phone age
        = (.error (.UserAlreadyExists (userAlreadyExistsMsg email)), s)
      ∧ ∀ (σ : Type) (repo : UserRepositoryTrait σ) (st : σ),
          (repo.find_by_email email st).1 = .ok (some u0) →
          create_user repo st email username phone age
            = (.error (.UserAlreadyExists (userAlreadyExistsMsg email)),
               (repo.find_by_email email st).2) := by
  constructor
  · unfold create_user
    rw [he, hu, hp, ha]
    simp [userRepositoryImpl, hex]
  · intro σ repo st hfind
    unfold create_user
    rw [he, hu, hp, ha]
    rcases hpair : repo.find_by_email email st with ⟨r, st1⟩
    rw [hpair] at hfind
    simp only at hfind
    rw [hfind]

/-- Claim C5, witness: creating the same email twice in a concrete
store fails with UserAlreadyExists and leaves the single stored record
in place. -/
theorem create_user_duplicate_email_witness :
    create_user userRepositoryImpl
        [((("a@b.com").data),
          ⟨("a@b.com").data, ("alice").data, ("1234567890").data, 30⟩)]
        (("a@b.com").data) (("bob").data) (("0987654321").data) 40
      = (.error (.UserAlreadyExists (userAlreadyExistsMsg (("a@b.com").data))),
         [((("a@b.com").data),
           ⟨("a@b.com").data, ("alice").data, ("1234567890").data, 30⟩)]) :=
  (create_user_duplicate_email
      [((("a@b.com").data),
        ⟨("a@b.com").data, ("alice").data, ("1234567890").data, 30⟩)]
      (("a@b.com").data) (("bob").data) (("0987654321").data) 40
      ⟨("a@b.com").data, ("alice").data, ("1234567890").data, 30⟩
      (by decide) (by decide) (by decide) (by decide) (by decide)).1

/-- Claim C6: over any well-formed store state, delete_user fails with
UserNotFound exactly when no record with the email exists (and then the
state is unchanged); otherwise it succeeds with unit, and in the
resulting state get_user on that email fails with UserNotFound, the
find_all record count has decreased by exactly one, and the record at
every other email is unchanged. -/
theorem delete_user_spec (s : UserMap) (email : Str)
    (hwf : (s.map Prod.fst).Nodup) :
    (lookupAL s email = none →
        delete_user userRepositoryImpl s email
          = (.error (.UserNotFound (userNotFoundMsg email)), s))
      ∧ ∀ u, lookupAL s email = some u →
          delete_user userRepositoryImpl s email = (.ok (), removeAL s email)
            ∧ (get_user userRepositoryImpl (removeAL s email) email).1
                = .error (.UserNotFound (userNotFoundMsg email))
            ∧ (∀ l l', (userRepositoryImpl.find_all s).1 = .ok l →
                (userRepositoryImpl.find_all (removeAL s email)).1 = .ok l' →
                l'.length + 1 = l.length)
            ∧ ∀ e, e ≠ email → lookupAL (removeAL s email) e = lookupAL s e := by
  constructor
  · intro habs
    unfold delete_user
    simp [userRepositoryImpl, containsAL_eq_isSome, habs,
      removeAL_eq_of_lookup_none s email habs]
  · intro u hex
    refine ⟨?_, ?_, ?_, ?_⟩
    · unfold delete_user
      simp [userRepositoryImpl, containsAL_eq_isSome, hex]
    · unfold get_user
      simp [userRepositoryImpl, lookupAL_removeAL_self s email hwf]
    · intro l l' hl hl'
      simp only [userRepositoryImpl] at hl hl'
      cases hl
      cases hl'
      simpa using length_removeAL s email u hex
    · intro e hne
      exact lookupAL_removeAL_ne s email e hne

/-- Claim C6, witness: deleting the one stored record succeeds, the
record can no longer be fetched, and the count drops from one to
zero; deleting from the empty store fails with UserNotFound. -/
theorem delete_user_spec_witness :
    (lookupAL ([] : UserMap) (("a@b.com").data) = none
        → delete_user userRepositoryImpl ([] : UserMap) (("a@b.com").data)
            = (.error (.UserNotFound (userNotFoundMsg (("a@b.com").data))),
               ([] : UserMap)))
      ∧ delete_user userRepositoryImpl
            [((("a@b.com").data),
              ⟨("a@b.com").data, ("alice").data, ("1234567890").data, 30⟩)]
            (("a@b.com").data)
          = (.ok (),
             removeAL
               [((("a@b.com").data),
                 ⟨("a@b.com").data, ("alice").data, ("1234567890").data, 30⟩)]
               (("a@b.com").data)) :=
  ⟨(delete_user_spec [] (("a@b.com").data) (by decide)).1,
    ((delete_user_spec
        [((("a@b.com").data),
          ⟨("a@b.com").data, ("alice").data, ("1234567890").data, 30⟩)]
        (("a@b.com").data) (by decide)).2
      ⟨("a@b.com").data, ("alice").data, ("1234567890").data, 30⟩
      (by decide)).1⟩

/-- Claim C7: whenever create_user or update_user returns one of the
four field-validation errors, the repository state after the call is
exactly the state before it — and since this holds for every
repository, including ones whose every operation alters the state, no
repository operation was invoked at all. -/
theorem validation_failure_leaves_state {σ : Type}
    (repo : UserRepositoryTrait σ) (s : σ) (email username phone : Str)
    (age : Nat) (e : UserError) :
    ((create_user repo s email username phone age).1 = .error e →
        isValidationError e = true →
        (create_user repo s email username phone age).2 = s)
      ∧ ((update_user repo s email username phone age).1 = .error e →
          isValidationError e = true →
          (update_user repo s email username phone age).2 = s) := by
  constructor
  · intro h1 h2
    unfold create_user at h1 ⊢
    rcases validate_email_cases email with he | he <;> rw [he] at h1 ⊢
    rcases validate_username_cases username with hu | hu <;> rw [hu] at h1 ⊢
    rcases validate_phone_cases phone with hp | hp <;> rw [hp] at h1 ⊢
    rcases validate_age_cases age with ha | ha <;> rw [ha] at h1 ⊢
    rcases hf : repo.find_by_email email s with ⟨r, s1⟩
    rw [hf] at h1
    rcases r with e1 | o
    · simp only at h1
      rcases hs : repo.save ⟨email, username, phone, age⟩ s1 with ⟨r2, s2⟩
      rw [hs] at h1
      rcases r2 with e2 | v
      · simp only at h1
        injection h1 with h3
        subst h3
        simp [isValidationError] at h2
      · simp at h1
    · rcases o with _ | u
      · simp only at h1
        rcases hs : repo.save ⟨email, username, phone, age⟩ s1 with ⟨r2, s2⟩
        rw [hs] at h1
        rcases r2 with e2 | v
        · simp only at h1
          injection h1 with h3
          subst h3
          simp [isValidationError] at h2
        · simp at h1
      · simp only at h1
        injection h1 with h3
        subst h3
        simp [isValidationError] at h2
  · intro h1 h2
    unfold update_user at h1 ⊢
    rcases validate_username_cases username with hu | hu <;> rw [hu] at h1 ⊢
    rcases validate_phone_cases phone with hp | hp <;> rw [hp] at h1 ⊢
    rcases validate_age_cases age with ha | ha <;> rw [ha] at h1 ⊢
    rcases hf : repo.find_by_email email s with ⟨r, s1⟩
    rw [hf] at h1
    rcases r with e1 | o
    · simp only at h1
      injection h1 with h3
      subst h3
      simp [isValidationError] at h2
    · rcases o with _ | u
      · simp only at h1
        injection h1 with h3
        subst h3
        simp [isValidationError] at h2
      · simp only at h1
        rcases hs : repo.save ⟨email, username, phone, age⟩ s1 with ⟨r2, s2⟩
        rw [hs] at h1
        rcases r2 with e2 | v
        · simp only at h1
          injection h1 with h3
          subst h3
          simp [isValidationError] at h2
        · simp at h1

/-- Claim C7, witness: a create_user call with an invalid email and an
update_user call with an invalid username both leave a concrete store
state untouched. -/
theorem validation_failure_leaves_state_witness :
    (create_user userRepositoryImpl ([] : UserMap) (("bad").data)
        (("alice").data) (("1234567890").data) 30).2 = ([] : UserMap)
      ∧ (update_user userRepositoryImpl ([] : UserMap) (("a@b.com").data)
          (("al").data) (("1234567890").data) 30).2 = ([] : UserMap) :=
  ⟨(validation_failure_leaves_state userRepositoryImpl [] (("bad").data)
      (("alice").data) (("1234567890").data) 30
      (.InvalidEmail (invalidEmailMsg (("bad").data)))).1 (by decide) (by decide),
    (validation_failure_leaves_state userRepositoryImpl [] (("a@b.com").data)
      (("al").data) (("1234567890").data) 30
      (.InvalidUsername usernameErrMsg)).2 (by decide) (by decide)⟩

/-- Claim C8: for every JSON parser behaviour, read_users on a missing
backing file yields the empty record set (not an error), on an existing
but empty file also yields the empty set, and on an existing non-empty
file whose content the parser rejects it fails hard with the storage
error carrying the parse-failure message. -/
theorem read_users_file_policy (parse : Str → Except Str UserMap)
    (content : Str) (e : Str) :
    read_users parse .missing = .ok []
      ∧ read_users parse (.present []) = .ok []
      ∧ (content ≠ [] → parse content = .error e →
          read_users parse (.present content) = .error (parseErrPrefix ++ e)) := by
  refine ⟨rfl, rfl, fun h1 h2 => ?_⟩
  unfold read_users
  simp only
  rw [if_neg (by simpa [List.isEmpty_iff] using h1), h2]

/-- Claim C8, witness: a one-character file content together with a
parser that rejects it makes read_users fail with the prefixed parse
error, while the missing-file and empty-file reads yield the empty
set. -/
theorem read_users_file_policy_witness :
    ((("x").data ≠ ([] : Str)) ∧
        (fun _ : Str => (.error (("bad").data) : Except Str UserMap)) (("x").data)
          = .error (("bad").data))
      ∧ read_users (fun _ => .error (("bad").data)) (.present (("x").data))
          = .error (parseErrPrefix ++ ("bad").data) :=
  ⟨⟨by decide, rfl⟩,
    (read_users_file_policy (fun _ => .error (("bad").data)) (("x").data)
        (("bad").data)).2.2 (by decide) rfl⟩

/-- Claim C9: update_user never returns InvalidEmail for any email and
any repository (the email is not re-validated); it validates username,
phone and age in that order with short-circuit; over the file-backed
store, when the validations pass and no record is stored under the
email it fails with UserNotFound leaving the state unchanged, and when
a record exists it overwrites all four fields of the record keyed by
the unchanged email through Store.save and returns the updated
record. -/
theorem update_user_spec (s : UserMap) (email username phone : Str)
    (age : Nat) :
    (∀ (σ : Type) (repo : UserRepositoryTrait σ) (st : σ) (m : Str),
        (update_user repo st email username phone age).1
          ≠ .error (.InvalidEmail m))
      ∧ (validate_username username ≠ .ok () →
          update_user userRepositoryImpl s email username phone age
            = (.error (.InvalidUsername usernameErrMsg), s))
      ∧ (validate_username username = .ok () → validate_phone phone ≠ .ok () →
          update_user userRepositoryImpl s email username phone age
            = (.error (.InvalidPhone phoneErrMsg), s))
      ∧ (validate_username username = .ok () → validate_phone phone = .ok () →
          validate_age age ≠ .ok () →
          update_user userRepositoryImpl s email username phone age
            = (.error (.InvalidAge ageErrMsg), s))
      ∧ (validate_username username = .ok () → validate_phone phone = .ok () →
          validate_age age = .ok () → lookupAL s email = none →
          update_user userRepositoryImpl s email username phone age
            = (.error (.UserNotFound (userNotFoundMsg email)), s))
      ∧ ∀ u0, validate_username username = .ok () → validate_phone phone = .ok () →
          validate_age age = .ok () → lookupAL s email = some u0 →
          update_user userRepositoryImpl s email username phone age
            = (.ok ⟨email, username, phone, age⟩,
               insertAL s email ⟨email, username, phone, age⟩) := by
  refine ⟨?_, ?_, ?_, ?_, ?_, ?_⟩
  · intro σ repo st m h1
    unfold update_user at h1
    rcases validate_username_cases username with hu | hu <;> rw [hu] at h1
    · rcases validate_phone_cases phone with hp | hp <;> rw [hp] at h1
      · rcases validate_age_cases age with ha | ha <;> rw [ha] at h1
        · rcases hf : repo.find_by_email email st with ⟨r, s1⟩
          rw [hf] at h1
          rcases r with e1 | o
          · simp at h1
          · rcases o with _ | u
            · simp at h1
            · simp only at h1
              rcases hs : repo.save ⟨email, username, phone, age⟩ s1 with ⟨r2, s2⟩
              rw [hs] at h1
              rcases r2 with e2 | v <;> simp at h1
        · simp at h1
      · simp at h1
    · simp at h1
  · intro hu
    have hu2 := (validate_username_cases username).resolve_left hu
    unfold update_user
    rw [hu2]
  · intro hu hp
    have hp2 := (validate_phone_cases phone).resolve_left hp
    unfold update_user
    rw [hu, hp2]
  · intro hu hp ha
    have ha2 := (validate_age_cases age).resolve_left ha
    unfold update_user
    rw [hu, hp, ha2]
  · intro hu hp ha habs
    unfold update_user
    rw [hu, hp, ha]
    simp [userRepositoryImpl, habs]
  · intro u0 hu hp ha hex
    unfold update_user
    rw [hu, hp, ha]
    simp [userRepositoryImpl, hex]

/-- Claim C9, witness: updating a stored record with valid new fields
succeeds and overwrites it; updating an absent email fails with
UserNotFound; and a concrete call with an email that the create-side
validator rejects still reports no InvalidEmail. -/
theorem update_user_spec_witness :
    (update_user userRepositoryImpl
        [((("a@b.com").data),
          ⟨("a@b.com").data, ("alice").data, ("1234567890").data, 30⟩)]
        (("a@b.com").data) (("bob").data) (("0987654321").data) 40
      = (.ok ⟨("a@b.com").data, ("bob").data, ("0987654321").data, 40⟩,
         insertAL
           [((("a@b.com").data),
             ⟨("a@b.com").data, ("alice").data, ("1234567890").data, 30⟩)]
           (("a@b.com").data)
           ⟨("a@b.com").data, ("bob").data, ("0987654321").data, 40⟩))
      ∧ (update_user userRepositoryImpl ([] : UserMap) (("a@b.com").data)
          (("bob").data) (("0987654321").data) 40
        = (.error (.UserNotFound (userNotFoundMsg (("a@b.com").data))),
           ([] : UserMap)))
      ∧ ∀ m, (update_user userRepositoryImpl ([] : UserMap) (("bad").data)
          (("bob").data) (("0987654321").data) 40).1 ≠ .error (.InvalidEmail m) :=
  ⟨((update_user_spec
        [((("a@b.com").data),
          ⟨("a@b.com").data, ("alice").data, ("1234567890").data, 30⟩)]
        (("a@b.com").data) (("bob").data) (("0987654321").data) 40).2.2.2.2.2
      ⟨("a@b.com").data, ("alice").data, ("1234567890").data, 30⟩
      (by decide) (by decide) (by decide) (by decide)),
    ((update_user_spec ([] : UserMap) (("a@b.com").data) (("bob").data)
        (("0987654321").data) 40).2.2.2.2.1
      (by decide) (by decide) (by decide) (by decide)),
    fun m => (update_user_spec ([] : UserMap) (("bad").data) (("bob").data)
        (("0987654321").data) 40).1 UserMap userRepositoryImpl [] m⟩

/-- Claim C10: whenever create_user or update_user succeeds — over any
repository — the record it returns carries exactly the four argument
values, unmodified (so a username accepted with surrounding whitespace
keeps it, untrimmed); and over the file-backed store the record
persisted by the accompanying save is that same verbatim record, stored
under the email key. -/
theorem record_fields_verbatim (email username phone : Str) (age : Nat) :
    (∀ (σ : Type) (repo : UserRepositoryTrait σ) (st : σ) (u : User),
        (create_user repo st email username phone age).1 = .ok u →
        u = ⟨email, username, phone, age⟩)
      ∧ (∀ (σ : Type) (repo : UserRepositoryTrait σ) (st : σ) (u : User),
          (update_user repo st email username phone age).1 = .ok u →
          u = ⟨email, username, phone, age⟩)
      ∧ (∀ (s : UserMap) (u : User),
          (create_user userRepositoryImpl s email username phone age).1 = .ok u →
          (create_user userRepositoryImpl s email username phone age).2
            = insertAL s email ⟨email, username, phone, age⟩)
      ∧ (∀ (s : UserMap) (u : User),
          (update_user userRepositoryImpl s email username phone age).1 = .ok u →
          (update_user userRepositoryImpl s email username phone age).2
            = insertAL s email ⟨email, username, phone, age⟩) := by
  refine ⟨?_, ?_, ?_, ?_⟩
  · intro σ repo st u h1
    unfold create_user at h1
    rcases validate_email_cases email with he | he <;> rw [he] at h1
    · rcases validate_username_cases username with hu | hu <;> rw [hu] at h1
      · rcases validate_phone_cases phone with hp | hp <;> rw [hp] at h1
        · rcases validate_age_cases age with ha | ha <;> rw [ha] at h1
          · rcases hf : repo.find_by_email email st with ⟨r, s1⟩
            rw [hf] at h1
            rcases r with e1 | o
            · simp only at h1
              rcases hs : repo.save ⟨email, username, phone, age⟩ s1 with ⟨r2, s2⟩
              rw [hs] at h1
              rcases r2 with e2 | v
              · simp at h1
              · simp only at h1
                injection h1 with h3
                exact h3.symm
            · rcases o with _ | u1
              · simp only at h1
                rcases hs : repo.save ⟨email, username, phone, age⟩ s1 with ⟨r2, s2⟩
                rw [hs] at h1
                rcases r2 with e2 | v
                · simp at h1
                · simp only at h1
                  injection h1 with h3
                  exact h3.symm
              · simp at h1
          · simp at h1
        · simp at h1
      · simp at h1
    · simp at h1
  · intro σ repo st u h1
    unfold update_user at h1
    rcases validate_username_cases username with hu | hu <;> rw [hu] at h1
    · rcases validate_phone_cases phone with hp | hp <;> rw [hp] at h1
      · rcases validate_age_cases age with ha | ha <;> rw [ha] at h1
        · rcases hf : repo.find_by_email email st with ⟨r, s1⟩
          rw [hf] at h1
          rcases r with e1 | o
          · simp at h1
          · rcases o with _ | u1
            · simp at h1
            · simp only at h1
              rcases hs : repo.save ⟨email, username, phone, age⟩ s1 with ⟨r2, s2⟩
              rw [hs] at h1
              rcases r2 with e2 | v
              · simp at h1
              · simp only at h1
                injection h1 with h3
                exact h3.symm
        · simp at h1
      · simp at h1
    · simp at h1
  · intro s u h1
    unfold create_user at h1 ⊢
    rcases validate_email_cases email with he | he <;> rw [he] at h1 ⊢
    · rcases validate_username_cases username with hu | hu <;> rw [hu] at h1 ⊢
      · rcases validate_phone_cases phone with hp | hp <;> rw [hp] at h1 ⊢
        · rcases validate_age_cases age with ha | ha <;> rw [ha] at h1 ⊢
          · rcases hl : lookupAL s email with _ | u0
            · simp [userRepositoryImpl, hl]
            · simp only [userRepositoryImpl, hl] at h1
              simp at h1
          · simp at h1
        · simp at h1
      · simp at h1
    · simp at h1
  · intro s u h1
    unfold update_user at h1 ⊢
    rcases validate_username_cases username with hu | hu <;> rw [hu] at h1 ⊢
    · rcases validate_phone_cases phone with hp | hp <;> rw [hp] at h1 ⊢
      · rcases validate_age_cases age with ha | ha <;> rw [ha] at h1 ⊢
        · rcases hl : lookupAL s email with _ | u0
          · simp only [userRepositoryImpl, hl] at h1
            simp at h1
          · simp [userRepositoryImpl, hl]
        · simp at h1
      · simp at h1
    · simp at h1

/-- Claim C10, witness: creating a record whose username carries a
leading space returns and persists that username with the space
preserved, untrimmed. -/
theorem record_fields_verbatim_witness :
    ((create_user userRepositoryImpl ([] : UserMap) (("a@b.com").data)
          ((" alice").data) (("1234567890").data) 30).1
        = .ok ⟨("a@b.com").data, (" alice").data, ("1234567890").data, 30⟩)
      ∧ (⟨("a@b.com").data, (" alice").data, ("1234567890").data, 30⟩ : User)
          = ⟨("a@b.com").data, (" alice").data, ("1234567890").data, 30⟩
      ∧ (create_user userRepositoryImpl ([] : UserMap) (("a@b.com").data)
            ((" alice").data) (("1234567890").data) 30).2
          = insertAL ([] : UserMap) (("a@b.com").data)
              ⟨("a@b.com").data, (" alice").data, ("1234567890").data, 30⟩ :=
  ⟨by decide,
    (record_fields_verbatim (("a@b.com").data) ((" alice").data)
        (("1234567890").data) 30).1 UserMap userRepositoryImpl []
      ⟨("a@b.com").data, (" alice").data, ("1234567890").data, 30⟩ (by decide),
    (record_fields_verbatim (("a@b.com").data) ((" alice").data)
        (("1234567890").data) 30).2.2.1 []
      ⟨("a@b.com").data, (" alice").data, ("1234567890").data, 30⟩ (by decide)⟩
